import Mathlib

/-!
Verification of the idea-to-solution platform front end.

This file shallowly embeds the pure logic of the repository:

* `src/lib/dataverse.ts` — status mapper, record mapper, create/update
  request construction, configuration guard, mock dataset;
* `src/unnamed/part_012` (fieldConfig.ts) — the status → field
  visibility/editability table;
* `src/unnamed/part_010` (validators.ts) — the creation schema bounds;
* `src/lib/auth.ts` — the ownership check;
* `src/app/actions/subscribeActions.ts` — the subscription action.

JavaScript dynamic values flowing out of the Dataverse JSON payloads are
modelled by `DvValue`; an absent object property (`undefined`) is `none`
at type `Option DvValue`.  JavaScript truthiness (`||` chains and `if`
guards in the source) is modelled by `DvValue.truthy`.  Network effects
are made explicit: each operation takes the outcome of its HTTP calls as
a parameter and returns the value the TypeScript function would produce,
with thrown errors as `Except.error`.
-/

/-- A dynamic JSON-ish value as it appears in a Dataverse record.
JSON numbers are modelled as rationals. -/
inductive DvValue where
  | num (q : ℚ)
  | str (s : String)
  | bool (b : Bool)
  | null
deriving Repr, DecidableEq

/-- JavaScript truthiness of a defined value: `0`, `""`, `false` and
`null` are falsy, everything else truthy. -/
def DvValue.truthy : DvValue → Bool
  | .num q => q ≠ 0
  | .str s => s ≠ ""
  | .bool b => b
  | .null => false

/-- Truthiness of a possibly-undefined value (`undefined` is falsy). -/
def truthyOpt : Option DvValue → Bool
  | some v => v.truthy
  | none => false

/-- JavaScript `a || b` for possibly-undefined `a`: `a` when truthy,
otherwise `b`. -/
def jsOr (a b : Option DvValue) : Option DvValue :=
  if truthyOpt a then a else b

/-- JavaScript `a || d` where the right operand is a defined value, so
the result is always defined. -/
def jsOrD (a : Option DvValue) (d : DvValue) : DvValue :=
  match a with
  | some v => if v.truthy then v else d
  | none => d

/-- A raw Dataverse record: an association list from OData property
names to values.  A key that does not occur is an absent property. -/
def DvRecord : Type := List (String × DvValue)

/-- Property access `record[key]` (`none` models `undefined`). -/
def DvRecord.get (r : DvRecord) (key : String) : Option DvValue :=
  (List.find? (fun p => p.1 = key) r).map (·.2)

/-- The domain lifecycle statuses (`ideaStatusValues` in validators.ts). -/
inductive IdeaStatus where
  | eingereicht
  | inQualitaetspruefung
  | inUeberarbeitung
  | inDetailanalyse
  | itotBoardVorgestellt
  | projektportfolioAufgenommen
  | quartalsplanungAufgenommen
  | wochenplanungAufgenommen
  | inUmsetzung
  | abgeschlossen
  | abgelehnt
deriving Repr, DecidableEq, Fintype

/-- The German display name of each status, exactly the string literals
of `ideaStatusValues`. -/
def IdeaStatus.toString : IdeaStatus → String
  | .eingereicht => "eingereicht"
  | .inQualitaetspruefung => "in Qualitätsprüfung"
  | .inUeberarbeitung => "in Überarbeitung"
  | .inDetailanalyse => "in Detailanalyse"
  | .itotBoardVorgestellt => "ITOT-Board vorgestellt"
  | .projektportfolioAufgenommen => "Projektportfolio aufgenommen"
  | .quartalsplanungAufgenommen => "Quartalsplanung aufgenommen"
  | .wochenplanungAufgenommen => "Wochenplanung aufgenommen"
  | .inUmsetzung => "in Umsetzung"
  | .abgeschlossen => "abgeschlossen"
  | .abgelehnt => "abgelehnt"

/-- The `STATUS_MAP` table of dataverse.ts: numeric Dataverse option-set
code → domain status. -/
def STATUS_MAP : List (ℚ × IdeaStatus) :=
  [ (562520000, .eingereicht),
    (562520001, .inQualitaetspruefung),
    (562520002, .inUeberarbeitung),
    (562520003, .inDetailanalyse),
    (562520005, .itotBoardVorgestellt),
    (562520006, .projektportfolioAufgenommen),
    (562520007, .quartalsplanungAufgenommen),
    (562520008, .wochenplanungAufgenommen),
    (562520010, .inUmsetzung),
    (562520011, .abgeschlossen),
    (562520004, .abgelehnt) ]

/-- `value in STATUS_MAP` followed by `STATUS_MAP[value]`. -/
def statusLookup (q : ℚ) : Option IdeaStatus :=
  (List.find? (fun p => p.1 = q) STATUS_MAP).map (·.2)

/-- `isValidStatus` of dataverse.ts, returning the parsed status: `some`
exactly on the eleven valid status strings. -/
def statusOfString (s : String) : Option IdeaStatus :=
  (List.find? (fun st => IdeaStatus.toString st = s)
    [ .eingereicht, .inQualitaetspruefung, .inUeberarbeitung,
      .inDetailanalyse, .itotBoardVorgestellt, .projektportfolioAufgenommen,
      .quartalsplanungAufgenommen, .wochenplanungAufgenommen,
      .inUmsetzung, .abgeschlossen, .abgelehnt ])

/-- `mapStatusValue` of dataverse.ts: a known numeric code maps through
`STATUS_MAP`, a valid status string is returned as-is, everything else
(undefined, unknown number, invalid string, other types) defaults to
`eingereicht`. -/
def mapStatusValue : Option DvValue → IdeaStatus
  | some (.num q) => (statusLookup q).getD .eingereicht
  | some (.str s) => (statusOfString s).getD .eingereicht
  | _ => .eingereicht

/-- An external value is recognized when it is a numeric code in
`STATUS_MAP` or a string among the eleven valid status names. -/
def recognizedStatusValue : Option DvValue → Bool
  | some (.num q) => (statusLookup q).isSome
  | some (.str s) => (statusOfString s).isSome
  | _ => false

/-- C1: every unrecognized external status value (missing, unknown
number, invalid string, non-number-non-string) maps to `eingereicht`,
and every known numeric code maps to its `STATUS_MAP` entry.
`mapStatusValue` is a total Lean function, so it never throws. -/
theorem C1_mapStatusValue_total_default
    : (∀ v : Option DvValue, recognizedStatusValue v = false →
        mapStatusValue v = .eingereicht) ∧
      (∀ (q : ℚ) (st : IdeaStatus), statusLookup q = some st →
        mapStatusValue (some (.num q)) = st) := by
  constructor
  · intro v hv
    match v with
    | none => rfl
    | some (.num q) =>
      simp only [recognizedStatusValue, Option.not_isSome_iff_eq_none,
        ← Bool.not_eq_true] at hv
      simp [mapStatusValue, hv]
    | some (.str s) =>
      simp only [recognizedStatusValue, Option.not_isSome_iff_eq_none,
        ← Bool.not_eq_true] at hv
      simp [mapStatusValue, hv]
    | some (.bool b) => rfl
    | some .null => rfl
  · intro q st h
    simp [mapStatusValue, h]

/-- Witness for C1 at concrete inputs: the unknown code 999 defaults to
`eingereicht`, and the known code 562520001 maps to
`in Qualitätsprüfung`. -/
theorem C1_mapStatusValue_total_default_witness
    : mapStatusValue (some (.num 999)) = .eingereicht ∧
      mapStatusValue (some (.num 562520001)) = .inQualitaetspruefung := by
  constructor
  · exact C1_mapStatusValue_total_default.1 (some (.num 999)) (by decide)
  · exact C1_mapStatusValue_total_default.2 562520001 .inQualitaetspruefung (by decide)

/-- `StatusFieldConfig` of fieldConfig.ts: which field names are shown
and which may be edited at a given lifecycle status. -/
structure StatusFieldConfig where
  visible : List String
  editable : List String
deriving Repr, DecidableEq

/-- The `FIELD_CONFIG` table of fieldConfig.ts, copied status by status
from the source. -/
def FIELD_CONFIG : IdeaStatus → StatusFieldConfig
  | .eingereicht =>
    { visible := ["title", "description", "type", "status", "bpfStatus", "submittedBy", "responsiblePerson", "createdOn", "modifiedOn"],
      editable := ["title", "description"] }
  | .inQualitaetspruefung =>
    { visible := ["title", "description", "type", "status", "bpfStatus", "submittedBy", "responsiblePerson", "initialReviewReason", "initialReviewDate", "createdOn", "modifiedOn"],
      editable := [] }
  | .inUeberarbeitung =>
    { visible := ["title", "description", "type", "status", "bpfStatus", "submittedBy", "responsiblePerson", "initialReviewReason", "initialReviewDate", "createdOn", "modifiedOn"],
      editable := ["description"] }
  | .inDetailanalyse =>
    { visible := ["title", "description", "type", "status", "bpfStatus", "submittedBy", "responsiblePerson", "initialReviewReason", "initialReviewDate", "complexity", "criticality", "priority", "detailAnalysisResult", "detailAnalysisBenefit", "detailAnalysisEffort", "createdOn", "modifiedOn"],
      editable := [] }
  | .itotBoardVorgestellt =>
    { visible := ["title", "description", "type", "status", "bpfStatus", "submittedBy", "responsiblePerson", "initialReviewReason", "initialReviewDate", "complexity", "criticality", "priority", "detailAnalysisResult", "detailAnalysisBenefit", "detailAnalysisEffort", "itotBoardReason", "itotBoardMeeting", "createdOn", "modifiedOn"],
      editable := [] }
  | .projektportfolioAufgenommen =>
    { visible := ["title", "description", "type", "status", "bpfStatus", "submittedBy", "responsiblePerson", "initialReviewReason", "initialReviewDate", "complexity", "criticality", "priority", "detailAnalysisResult", "detailAnalysisBenefit", "detailAnalysisEffort", "itotBoardReason", "itotBoardMeeting", "plannedStart", "plannedEnd", "createdOn", "modifiedOn"],
      editable := [] }
  | .quartalsplanungAufgenommen =>
    { visible := ["title", "description", "type", "status", "bpfStatus", "submittedBy", "responsiblePerson", "initialReviewReason", "initialReviewDate", "complexity", "criticality", "priority", "detailAnalysisResult", "detailAnalysisBenefit", "detailAnalysisEffort", "itotBoardReason", "itotBoardMeeting", "plannedStart", "plannedEnd", "createdOn", "modifiedOn"],
      editable := [] }
  | .wochenplanungAufgenommen =>
    { visible := ["title", "description", "type", "status", "bpfStatus", "submittedBy", "responsiblePerson", "initialReviewReason", "initialReviewDate", "complexity", "criticality", "priority", "detailAnalysisResult", "detailAnalysisBenefit", "detailAnalysisEffort", "itotBoardReason", "itotBoardMeeting", "plannedStart", "plannedEnd", "createdOn", "modifiedOn"],
      editable := [] }
  | .inUmsetzung =>
    { visible := ["title", "description", "type", "status", "bpfStatus", "submittedBy", "responsiblePerson", "initialReviewReason", "initialReviewDate", "complexity", "criticality", "priority", "detailAnalysisResult", "detailAnalysisBenefit", "detailAnalysisEffort", "itotBoardReason", "itotBoardMeeting", "plannedStart", "plannedEnd", "createdOn", "modifiedOn"],
      editable := [] }
  | .abgeschlossen =>
    { visible := ["title", "description", "type", "status", "bpfStatus", "submittedBy", "responsiblePerson", "initialReviewReason", "initialReviewDate", "complexity", "criticality", "priority", "detailAnalysisResult", "detailAnalysisBenefit", "detailAnalysisEffort", "itotBoardReason", "itotBoardMeeting", "plannedStart", "plannedEnd", "completedOn", "createdOn", "modifiedOn"],
      editable := [] }
  | .abgelehnt =>
    { visible := ["title", "description", "type", "status", "bpfStatus", "submittedBy", "responsiblePerson", "initialReviewReason", "initialReviewDate", "complexity", "criticality", "priority", "detailAnalysisResult", "detailAnalysisBenefit", "detailAnalysisEffort", "itotBoardReason", "itotBoardMeeting", "plannedStart", "plannedEnd", "rejectedOn", "createdOn", "modifiedOn"],
      editable := [] }

/-- C2 (counterexample): at status `eingereicht` the editable set of
`FIELD_CONFIG` contains `title`, so it is neither empty nor exactly
the singleton with `description`. -/
theorem C2_eingereicht_title_editable
    : "title" ∈ (FIELD_CONFIG .eingereicht).editable ∧
      "title" ≠ "description" ∧
      (FIELD_CONFIG .eingereicht).editable ≠ [] ∧
      (FIELD_CONFIG .eingereicht).editable ≠ ["description"] := by
  decide

/-- C2 (amended): for every status the editable set is empty or exactly
`{description}`, except `eingereicht` whose editable set is exactly
`{title, description}`; exactly the two statuses `eingereicht` and
`in Überarbeitung` have a non-empty editable set. -/
theorem C2_editable_sets
    : (∀ st : IdeaStatus,
        (FIELD_CONFIG st).editable = [] ∨
        (FIELD_CONFIG st).editable = ["description"] ∨
        (st = .eingereicht ∧ (FIELD_CONFIG st).editable = ["title", "description"])) ∧
      (∀ st : IdeaStatus,
        ((FIELD_CONFIG st).editable ≠ [] ↔
          (st = .eingereicht ∨ st = .inUeberarbeitung))) := by
  decide

/-- C7: for every domain status, every field name listed as editable in
`FIELD_CONFIG` is also listed as visible there. -/
theorem C7_editable_subset_visible
    : ∀ st : IdeaStatus,
        (FIELD_CONFIG st).editable ⊆ (FIELD_CONFIG st).visible := by
  decide

/-- Witness for C7: `description`, editable at `in Überarbeitung`, is
visible there. -/
theorem C7_editable_subset_visible_witness
    : "description" ∈ (FIELD_CONFIG .inUeberarbeitung).visible :=
  C7_editable_subset_visible .inUeberarbeitung (by decide)

/-- The ambient configuration read by dataverse.ts: `DATAVERSE_URL`, the
`dataverse_token` cookie (absent or unreadable → `none`) and the
`DATAVERSE_ACCESS_TOKEN` environment fallback (unset → `""`). -/
structure Config where
  dataverseUrl : String
  cookieToken : Option String
  envToken : String
deriving Repr, DecidableEq

/-- `getAccessToken` of dataverse.ts: the cookie value when present and
non-empty, otherwise the environment fallback token. -/
def getAccessToken (cfg : Config) : String :=
  match cfg.cookieToken with
  | some t => if t ≠ "" then t else cfg.envToken
  | none => cfg.envToken

/-- `isDataverseConfigured` of dataverse.ts: the URL is set and some
token is available. -/
def isDataverseConfigured (cfg : Config) : Bool :=
  cfg.dataverseUrl ≠ "" && getAccessToken cfg ≠ ""

/-- The `FIELD_MAP` constant of dataverse.ts: domain field name →
Dataverse OData property name. -/
structure FieldMap where
  id : String
  title : String
  description : String
  submittedBy : String
  submittedByName : String
  ideengeberId : String
  ideengeberName : String
  type : String
  status : String
  responsiblePerson : String
  responsiblePersonName : String
  subscriber : String
  subscriberName : String
  createdOn : String
  modifiedOn : String
  initialReviewReason : String
  complexity : String
  criticality : String
  initialReviewDate : String
  detailAnalysisResult : String
  detailAnalysisBenefit : String
  detailAnalysisEffort : String
  priority : String
  itotBoardReason : String
  itotBoardMeeting : String
  itotBoardMeetingName : String
  plannedStart : String
  plannedEnd : String
  completedOn : String
  rejectedOn : String
deriving Repr, DecidableEq

/-- The values of `FIELD_MAP`, copied from dataverse.ts. -/
def FIELD_MAP : FieldMap where
  id := "cr6df_sgsw_digitalisierungsvorhabenid"
  title := "cr6df_name"
  description := "cr6df_beschreibung"
  submittedBy := "_createdby_value"
  submittedByName := "_createdby_value@OData.Community.Display.V1.FormattedValue"
  ideengeberId := "_cr6df_ideengeber_value"
  ideengeberName := "_cr6df_ideengeber_value@OData.Community.Display.V1.FormattedValue"
  type := "cr6df_typ"
  status := "cr6df_lifecyclestatus"
  responsiblePerson := "_cr6df_verantwortlicher_value"
  responsiblePersonName := "_cr6df_verantwortlicher_value@OData.Community.Display.V1.FormattedValue"
  subscriber := "_cr6df_abonnenten_value"
  subscriberName := "_cr6df_abonnenten_value@OData.Community.Display.V1.FormattedValue"
  createdOn := "createdon"
  modifiedOn := "modifiedon"
  initialReviewReason := "cr6df_initalbewertung_begruendung"
  complexity := "cr6df_komplexitaet"
  criticality := "cr6df_kritikalitaet"
  initialReviewDate := "cr6df_initialgeprueft_am"
  detailAnalysisResult := "cr6df_detailanalyse_ergebnis"
  detailAnalysisBenefit := "cr6df_detailanalyse_nutzen"
  detailAnalysisEffort := "cr6df_detailanalyse_personentage"
  priority := "cr6df_prioritat"
  itotBoardReason := "cr6df_itotboard_begruendung"
  itotBoardMeeting := "_cr6df_itotboardsitzung_value"
  itotBoardMeetingName := "_cr6df_itotboardsitzung_value@OData.Community.Display.V1.FormattedValue"
  plannedStart := "cr6df_planung_geplanterstart"
  plannedEnd := "cr6df_planung_geplantesende"
  completedOn := "cr6df_abgeschlossen_am"
  rejectedOn := "cr6df_abgelehnt_am"

/-- The PATCH body built by `updateIdeaDescription` in dataverse.ts: the
new description, plus a status reset to code 562520000 exactly when the
supplied current status is `in Überarbeitung`. -/
def updateIdeaDescriptionBody (description : String)
    (currentStatus : Option String) : List (String × DvValue) :=
  [(FIELD_MAP.description, .str description)] ++
    (if currentStatus = some "in Überarbeitung" then
      [(FIELD_MAP.status, .num 562520000)]
    else [])

/-- `updateIdeaDescription` of dataverse.ts with its network effects made
explicit: the first component is the PATCH body that was sent (`none`
when unconfigured, so no request is issued), the second the returned or
thrown result. -/
def updateIdeaDescription (cfg : Config) (responseOk : Bool)
    (description : String) (currentStatus : Option String)
    : Option (List (String × DvValue)) × Except String Unit :=
  if isDataverseConfigured cfg = false then (none, .ok ())
  else
    (some (updateIdeaDescriptionBody description currentStatus),
      if responseOk then .ok () else .error "Dataverse update failed")

/-- C3: the PATCH body of `updateIdeaDescription` contains the status
reset to code 562520000 (`eingereicht`) iff the supplied current status
is `in Überarbeitung`; for every other current status (including a
missing one) the body holds only the description field.  When the
platform is configured, the issued PATCH body is exactly this body. -/
theorem C3_updateIdeaDescription_status_reset
    : ∀ (d : String) (cs : Option String),
        ((FIELD_MAP.status, DvValue.num 562520000) ∈
            updateIdeaDescriptionBody d cs ↔ cs = some "in Überarbeitung") ∧
        (cs ≠ some "in Überarbeitung" →
          updateIdeaDescriptionBody d cs = [(FIELD_MAP.description, .str d)]) ∧
        (∀ (cfg : Config) (ok : Bool), isDataverseConfigured cfg = true →
          (updateIdeaDescription cfg ok d cs).1 =
            some (updateIdeaDescriptionBody d cs)) := by
  intro d cs
  refine ⟨?_, ?_, ?_⟩
  · by_cases h : cs = some "in Überarbeitung" <;>
      simp [updateIdeaDescriptionBody, h, FIELD_MAP]
  · intro h
    simp [updateIdeaDescriptionBody, h]
  · intro cfg ok hcfg
    simp [updateIdeaDescription, hcfg]

/-- Witness for C3: with current status `in Überarbeitung` the body
contains the status reset; with no current status the body is only the
description field. -/
theorem C3_updateIdeaDescription_status_reset_witness
    : (FIELD_MAP.status, DvValue.num 562520000) ∈
        updateIdeaDescriptionBody "Neue Beschreibung" (some "in Überarbeitung") ∧
      updateIdeaDescriptionBody "Neue Beschreibung" none =
        [(FIELD_MAP.description, .str "Neue Beschreibung")] := by
  constructor
  · exact (C3_updateIdeaDescription_status_reset "Neue Beschreibung"
      (some "in Überarbeitung")).1.mpr rfl
  · exact (C3_updateIdeaDescription_status_reset "Neue Beschreibung"
      none).2.1 (by simp)

/-- The `TYPE_MAP` table of dataverse.ts: numeric type code → label. -/
def TYPE_MAP : List (ℚ × String) :=
  [ (562520000, "Idee"),
    (562520001, "Vorhaben"),
    (562520002, "Projekt") ]

/-- `mapTypeValue` of dataverse.ts: a numeric code looks up `TYPE_MAP`
(an unknown code becomes undefined), a string passes through, anything
else becomes undefined. -/
def mapTypeValue : Option DvValue → Option String
  | some (.num q) => (List.find? (fun p => p.1 = q) TYPE_MAP).map (·.2)
  | some (.str s) => some s
  | _ => none

/-- The OData annotation suffix used in dataverse.ts to read formatted
display values of option sets. -/
def formattedValueSuffix : String := "@OData.Community.Display.V1.FormattedValue"

/-- The domain entity of validators.ts, with the runtime value each
mapper expression actually produces: blind `as string` casts keep the
raw value (`Option DvValue`), the `submittedBy` fallback chain always
yields a value, the status is a domain status, the type a label, the
effort a number or unset. -/
structure Idea where
  id : Option DvValue := none
  title : Option DvValue := none
  description : Option DvValue := none
  submittedBy : DvValue
  submittedById : Option DvValue := none
  type : Option String := none
  status : IdeaStatus
  bpfStatus : Option String := none
  responsiblePerson : Option DvValue := none
  subscriber : Option DvValue := none
  subscriberId : Option DvValue := none
  createdOn : Option DvValue := none
  modifiedOn : Option DvValue := none
  initialReviewReason : Option DvValue := none
  complexity : Option DvValue := none
  criticality : Option DvValue := none
  initialReviewDate : Option DvValue := none
  detailAnalysisResult : Option DvValue := none
  detailAnalysisBenefit : Option DvValue := none
  detailAnalysisEffort : Option ℚ := none
  priority : Option DvValue := none
  itotBoardReason : Option DvValue := none
  itotBoardMeeting : Option DvValue := none
  itotBoardMeetingId : Option DvValue := none
  plannedStart : Option DvValue := none
  plannedEnd : Option DvValue := none
  completedOn : Option DvValue := none
  rejectedOn : Option DvValue := none
deriving Repr, DecidableEq

/-- `mapDataverseToIdea` of dataverse.ts, field for field. -/
def mapDataverseToIdea (r : DvRecord) : Idea where
  id := r.get FIELD_MAP.id
  title := r.get FIELD_MAP.title
  description := r.get FIELD_MAP.description
  submittedBy :=
    jsOrD (r.get FIELD_MAP.submittedByName)
      (jsOrD (r.get FIELD_MAP.submittedBy) (.str "Unbekannt"))
  submittedById := r.get FIELD_MAP.submittedBy
  type := mapTypeValue (r.get FIELD_MAP.type)
  status := mapStatusValue (r.get FIELD_MAP.status)
  responsiblePerson := r.get FIELD_MAP.responsiblePersonName
  subscriber := r.get FIELD_MAP.subscriberName
  subscriberId := r.get FIELD_MAP.subscriber
  createdOn := r.get FIELD_MAP.createdOn
  modifiedOn := r.get FIELD_MAP.modifiedOn
  initialReviewReason := r.get FIELD_MAP.initialReviewReason
  complexity :=
    jsOr (r.get (FIELD_MAP.complexity ++ formattedValueSuffix))
      (r.get FIELD_MAP.complexity)
  criticality :=
    jsOr (r.get (FIELD_MAP.criticality ++ formattedValueSuffix))
      (r.get FIELD_MAP.criticality)
  initialReviewDate := r.get FIELD_MAP.initialReviewDate
  detailAnalysisResult := r.get FIELD_MAP.detailAnalysisResult
  detailAnalysisBenefit := r.get FIELD_MAP.detailAnalysisBenefit
  detailAnalysisEffort :=
    match r.get FIELD_MAP.detailAnalysisEffort with
    | some (.num q) => some q
    | _ => none
  priority :=
    jsOr (r.get (FIELD_MAP.priority ++ formattedValueSuffix))
      (r.get FIELD_MAP.priority)
  itotBoardReason := r.get FIELD_MAP.itotBoardReason
  itotBoardMeeting := r.get FIELD_MAP.itotBoardMeetingName
  itotBoardMeetingId := r.get FIELD_MAP.itotBoardMeeting
  plannedStart := r.get FIELD_MAP.plannedStart
  plannedEnd := r.get FIELD_MAP.plannedEnd
  completedOn := r.get FIELD_MAP.completedOn
  rejectedOn := r.get FIELD_MAP.rejectedOn
  bpfStatus := none

/-- First `||` alternative when the left value is truthy. -/
theorem jsOrD_of_truthy (v : DvValue) (d : DvValue) (h : v.truthy = true)
    : jsOrD (some v) d = v := by
  simp [jsOrD, h]

/-- First `||` alternative falls through when the left value is falsy. -/
theorem jsOrD_of_falsy (a : Option DvValue) (d : DvValue)
    (h : truthyOpt a = false) : jsOrD a d = d := by
  match a with
  | none => rfl
  | some v => simp_all [jsOrD, truthyOpt]

/-- C4 (counterexample): a record whose formatted creator field is
present with the empty string and whose raw creator field is present
with a GUID yields the raw value, not the present formatted value. -/
theorem C4_empty_formatted_not_preferred
    : DvRecord.get
        [ (FIELD_MAP.submittedByName, DvValue.str ""),
          (FIELD_MAP.submittedBy, DvValue.str "guid-123") ]
        FIELD_MAP.submittedByName = some (.str "") ∧
      (mapDataverseToIdea
        [ (FIELD_MAP.submittedByName, DvValue.str ""),
          (FIELD_MAP.submittedBy, DvValue.str "guid-123") ]).submittedBy =
        .str "guid-123" := by
  constructor <;> rfl

/-- C4 (amended): the Record Mapper prefers the formatted display value
when it is present and truthy (a non-empty string), otherwise the raw
lookup value when present and truthy, otherwise the fixed placeholder
`Unbekannt`.  The result is a total value, never undefined. -/
theorem C4_submittedBy_preference
    : ∀ r : DvRecord,
        (∀ v : DvValue, r.get FIELD_MAP.submittedByName = some v →
          v.truthy = true → (mapDataverseToIdea r).submittedBy = v) ∧
        (truthyOpt (r.get FIELD_MAP.submittedByName) = false →
          ∀ v : DvValue, r.get FIELD_MAP.submittedBy = some v →
            v.truthy = true → (mapDataverseToIdea r).submittedBy = v) ∧
        (truthyOpt (r.get FIELD_MAP.submittedByName) = false →
          truthyOpt (r.get FIELD_MAP.submittedBy) = false →
            (mapDataverseToIdea r).submittedBy = .str "Unbekannt") := by
  intro r
  refine ⟨?_, ?_, ?_⟩
  · intro v hget hv
    simp [mapDataverseToIdea, hget, jsOrD_of_truthy v _ hv]
  · intro hfmt v hget hv
    simp [mapDataverseToIdea, jsOrD_of_falsy _ _ hfmt, hget,
      jsOrD_of_truthy v _ hv]
  · intro hfmt hraw
    simp [mapDataverseToIdea, jsOrD_of_falsy _ _ hfmt,
      jsOrD_of_falsy _ _ hraw]

/-- Witness for C4 (amended): with both fields present and non-empty the
formatted name wins; with both absent the placeholder appears. -/
theorem C4_submittedBy_preference_witness
    : (mapDataverseToIdea
        [ (FIELD_MAP.submittedByName, DvValue.str "Max Muster"),
          (FIELD_MAP.submittedBy, DvValue.str "guid-123") ]).submittedBy =
        .str "Max Muster" ∧
      (mapDataverseToIdea []).submittedBy = .str "Unbekannt" := by
  constructor
  · exact (C4_submittedBy_preference
      [ (FIELD_MAP.submittedByName, DvValue.str "Max Muster"),
        (FIELD_MAP.submittedBy, DvValue.str "guid-123") ]).1
      (.str "Max Muster") (by decide) (by decide)
  · exact (C4_submittedBy_preference []).2.2 (by decide) (by decide)

/-- C8: when the raw effort field is absent or not a number the mapped
`detailAnalysisEffort` is unset (never zero); when it is a number the
mapped field equals that number. -/
theorem C8_effort_number_or_unset
    : ∀ r : DvRecord,
        (∀ q : ℚ, r.get FIELD_MAP.detailAnalysisEffort = some (.num q) →
          (mapDataverseToIdea r).detailAnalysisEffort = some q) ∧
        ((∀ q : ℚ, r.get FIELD_MAP.detailAnalysisEffort ≠ some (.num q)) →
          (mapDataverseToIdea r).detailAnalysisEffort = none) := by
  intro r
  constructor
  · intro q hget
    simp [mapDataverseToIdea, hget]
  · intro h
    cases hget : r.get FIELD_MAP.detailAnalysisEffort with
    | none => simp [mapDataverseToIdea, hget]
    | some v =>
      cases v with
      | num q => exact absurd hget (h q)
      | str s => simp [mapDataverseToIdea, hget]
      | bool b => simp [mapDataverseToIdea, hget]
      | null => simp [mapDataverseToIdea, hget]

/-- Witness for C8: a numeric effort of 3 maps to `some 3`, a string
effort maps to unset. -/
theorem C8_effort_number_or_unset_witness
    : (mapDataverseToIdea
        [(FIELD_MAP.detailAnalysisEffort, DvValue.num 3)]).detailAnalysisEffort =
        some 3 ∧
      (mapDataverseToIdea
        [(FIELD_MAP.detailAnalysisEffort, DvValue.str "3")]).detailAnalysisEffort =
        none := by
  constructor
  · exact (C8_effort_number_or_unset
      [(FIELD_MAP.detailAnalysisEffort, DvValue.num 3)]).1 3 (by decide)
  · refine (C8_effort_number_or_unset
      [(FIELD_MAP.detailAnalysisEffort, DvValue.str "3")]).2 ?_
    intro q h
    rw [show DvRecord.get [(FIELD_MAP.detailAnalysisEffort, DvValue.str "3")]
      FIELD_MAP.detailAnalysisEffort = some (DvValue.str "3") from rfl] at h
    exact DvValue.noConfusion (Option.some.inj h)

/-- `getMockIdeas` of dataverse.ts: the fixed in-memory sample dataset
used when Dataverse is not configured. -/
def getMockIdeas : List Idea :=
  [ { id := some (.str "550e8400-e29b-41d4-a716-446655440001"),
      title := some (.str "Digitale Zeiterfassung per App"),
      description := some (.str "Aktuell erfassen wir Arbeitszeiten noch auf Papier oder in Excel. Eine mobile App würde den Prozess vereinfachen und Fehler reduzieren. Die App sollte offline funktionieren und sich mit unserem HR-System synchronisieren."),
      submittedBy := .str "Max Muster",
      submittedById := some (.str "11111111-1111-1111-1111-111111111111"),
      type := some "Idee",
      status := .inQualitaetspruefung,
      createdOn := some (.str "2024-11-15T09:30:00Z") },
    { id := some (.str "550e8400-e29b-41d4-a716-446655440002"),
      title := some (.str "Automatisierte Rechnungsverarbeitung"),
      description := some (.str "Eingehende Rechnungen werden manuell in unser System eingegeben. Mit OCR und KI könnten wir diesen Prozess automatisieren. Das spart Zeit und reduziert Eingabefehler erheblich."),
      submittedBy := .str "Anna Beispiel",
      submittedById := some (.str "22222222-2222-2222-2222-222222222222"),
      type := some "Vorhaben",
      status := .projektportfolioAufgenommen,
      createdOn := some (.str "2024-11-10T14:15:00Z") },
    { id := some (.str "550e8400-e29b-41d4-a716-446655440003"),
      title := some (.str "Self-Service Portal für Mitarbeitende"),
      description := some (.str "Viele HR-Anfragen (Feriensaldo, Lohnabrechnung, Adressänderung) könnten über ein Portal selbst erledigt werden. Das entlastet die HR-Abteilung und gibt Mitarbeitenden mehr Autonomie."),
      submittedBy := .str "Peter Müller",
      submittedById := some (.str "33333333-3333-3333-3333-333333333333"),
      type := some "Projekt",
      status := .inUmsetzung,
      createdOn := some (.str "2024-11-20T11:00:00Z") } ]

/-- Outcome of the ideas list request in `fetchAllIdeas`: a network
failure (the `catch` branch), a non-ok HTTP response, or a parsed list
of records. -/
inductive HttpListResult where
  | netError
  | httpError (status : Nat)
  | ok (records : List DvRecord)

/-- Stage name for an idea id from the already-parsed BPF response map
(`bpfMap.get(idea.id)` in the source; the map keys are id strings). -/
def bpfStatusFor (bpfMap : List (String × String))
    (ideaId : Option DvValue) : Option String :=
  match ideaId with
  | some (.str g) => (List.find? (fun p => p.1 = g) bpfMap).map (·.2)
  | _ => none

/-- `fetchAllIdeas` of dataverse.ts with its network effects explicit:
`resp` is the outcome of the ideas request and `bpfMap` the
already-parsed BPF stage map.  The second component records whether the
platform was called at all.  When unconfigured, or on any failure, the
mock dataset is returned and no error is raised. -/
def fetchAllIdeas (cfg : Config) (resp : HttpListResult)
    (bpfMap : List (String × String)) : List Idea × Bool :=
  if isDataverseConfigured cfg = false then (getMockIdeas, false)
  else
    match resp with
    | .ok records =>
      (records.map (fun rec =>
        let idea := mapDataverseToIdea rec
        { idea with bpfStatus := bpfStatusFor bpfMap idea.id }), true)
    | .netError => (getMockIdeas, true)
    | .httpError _ => (getMockIdeas, true)

/-- C6: whenever the configuration is absent (URL unset, or no token
from cookie or environment), `fetchAllIdeas` returns the fixed mock
dataset, issues no platform call, and raises no error (it is a total
function into `List Idea × Bool`). -/
theorem C6_unconfigured_returns_mock
    : ∀ (cfg : Config) (resp : HttpListResult)
        (bpfMap : List (String × String)),
        isDataverseConfigured cfg = false →
        fetchAllIdeas cfg resp bpfMap = (getMockIdeas, false) := by
  intro cfg resp bpfMap h
  simp [fetchAllIdeas, h]

/-- Witness for C6: with every configuration source empty, the result is
the mock dataset and the platform is not called. -/
theorem C6_unconfigured_returns_mock_witness
    : fetchAllIdeas ⟨"", none, ""⟩ (.ok []) [] = (getMockIdeas, false) :=
  C6_unconfigured_returns_mock ⟨"", none, ""⟩ (.ok []) [] (by decide)

/-- `CreateIdeaInput` of validators.ts: the fields the user fills in. -/
structure CreateIdeaInput where
  title : String
  description : String
deriving Repr, DecidableEq

/-- `createIdeaSchema` of validators.ts: title of 5–200 characters,
description of 20–4000 characters (zod string length bounds). -/
def createIdeaSchemaCheck (i : CreateIdeaInput) : Bool :=
  5 ≤ i.title.length && i.title.length ≤ 200 &&
    20 ≤ i.description.length && i.description.length ≤ 4000

/-- First regex group of `/\(([^)]+)\)/` when a match starts right here:
the non-empty run of non-`)` characters, provided a `)` follows it. -/
def parenGroupHere (cs : List Char) : Option String :=
  let pre := cs.takeWhile (fun c => c ≠ ')')
  if pre.length > 0 ∧ pre.length < cs.length then some (String.mk pre) else none

/-- `header.match(/\(([^)]+)\)/)` of createIdea: scan for the first `(`
from which a group can be captured and return that group. -/
def extractParenGroup : List Char → Option String
  | [] => none
  | c :: rest =>
    if c = '(' then
      match parenGroupHere rest with
      | some s => some s
      | none => extractParenGroup rest
    else extractParenGroup rest

/-- Outcomes of the effects used by `createIdea`: the employee lookup,
the POST response, the `OData-EntityId` header, the value
`crypto.randomUUID()` would produce, and `new Date().toISOString()`. -/
structure CreateEnv where
  ideengeberId : Option String
  responseOk : Bool
  entityIdHeader : Option String
  freshUuid : String
  now : String
deriving Repr, DecidableEq

/-- The POST body built by `createIdea`: title, description, the default
type code 562520000, and the Ideengeber lookup binding when the employee
was found. -/
def createIdeaBody (input : CreateIdeaInput)
    (ideengeberId : Option String) : List (String × DvValue) :=
  [ (FIELD_MAP.title, .str input.title),
    (FIELD_MAP.description, .str input.description),
    (FIELD_MAP.type, .num 562520000) ] ++
    (match ideengeberId with
    | some g =>
      [("cr6df_ideengeber@odata.bind",
        .str ("/cr6df_sgsw_mitarbeitendes(" ++ g ++ ")"))]
    | none => [])

/-- The entity literal both return paths of `createIdea` build: input
title and description, the given submitter name, default type `Idee`,
initial status, and the given new id and timestamp. -/
def freshIdea (input : CreateIdeaInput) (submittedBy newId now : String)
    : Idea where
  id := some (.str newId)
  title := some (.str input.title)
  description := some (.str input.description)
  submittedBy := .str submittedBy
  type := some "Idee"
  status := .eingereicht
  createdOn := some (.str now)

/-- `createIdea` of dataverse.ts with its effects explicit.  When the
platform is not configured the creation is simulated with a fresh UUID;
when it is, a failed POST throws and a successful POST yields an entity
whose id is taken from the `OData-EntityId` header, falling back to a
fresh UUID. -/
def createIdea (cfg : Config) (env : CreateEnv) (input : CreateIdeaInput)
    (submittedBy : String) : Except String Idea :=
  if isDataverseConfigured cfg = false then
    .ok (freshIdea input submittedBy env.freshUuid env.now)
  else if env.responseOk = false then
    .error "Dataverse create failed"
  else
    .ok (freshIdea input submittedBy
      ((env.entityIdHeader.bind
        (fun h => extractParenGroup h.toList)).getD env.freshUuid) env.now)

/-- C5: for every input passing the creation schema, whenever
`createIdea` does not throw (it is unconfigured, or the POST succeeded),
it returns an entity with the input title and description, status
`eingereicht`, the default type `Idee`, and a newly generated id — the
group extracted from the `OData-EntityId` header or a fresh UUID. -/
theorem C5_createIdea_fresh_entity
    : ∀ (cfg : Config) (env : CreateEnv) (input : CreateIdeaInput)
        (submittedBy : String),
        createIdeaSchemaCheck input = true →
        (isDataverseConfigured cfg = false ∨ env.responseOk = true) →
        ∃ idea : Idea,
          createIdea cfg env input submittedBy = .ok idea ∧
          idea.title = some (.str input.title) ∧
          idea.description = some (.str input.description) ∧
          idea.status = .eingereicht ∧
          idea.type = some "Idee" ∧
          (idea.id = some (.str env.freshUuid) ∨
            ∃ (h : String) (g : String), env.entityIdHeader = some h ∧
              extractParenGroup h.toList = some g ∧
              idea.id = some (.str g)) := by
  intro cfg env input submittedBy _ hok
  by_cases hcfg : isDataverseConfigured cfg = false
  · exact ⟨freshIdea input submittedBy env.freshUuid env.now,
      by simp [createIdea, hcfg], rfl, rfl, rfl, rfl, Or.inl rfl⟩
  · have hresp : env.responseOk = true := hok.resolve_left hcfg
    refine ⟨freshIdea input submittedBy
      ((env.entityIdHeader.bind
        (fun h => extractParenGroup h.toList)).getD env.freshUuid) env.now,
      by simp [createIdea, hcfg, hresp], rfl, rfl, rfl, rfl, ?_⟩
    cases hhd : env.entityIdHeader with
    | none => exact Or.inl (by simp [freshIdea])
    | some h =>
      cases hg : extractParenGroup h.toList with
      | none =>
        have hg2 : extractParenGroup h.data = none := hg
        exact Or.inl (by simp [freshIdea, hg2])
      | some g =>
        have hg2 : extractParenGroup h.data = some g := hg
        exact Or.inr ⟨h, g, rfl, hg, by simp [freshIdea, hg2]⟩

/-- Witness for C5, the end-to-end scenario of the spec: title
`Digitale Zeiterfassung` with a 25-character description on an
unconfigured platform yields a fresh entity. -/
theorem C5_createIdea_fresh_entity_witness
    : ∃ idea : Idea,
        createIdea ⟨"", none, ""⟩ ⟨none, true, none, "uuid-1", "2024-01-01T00:00:00Z"⟩
          ⟨"Digitale Zeiterfassung", "Beschreibung mit 25 Zeich"⟩ "Max Muster" =
          .ok idea ∧
        idea.title = some (.str "Digitale Zeiterfassung") ∧
        idea.description = some (.str "Beschreibung mit 25 Zeich") ∧
        idea.status = .eingereicht ∧
        idea.type = some "Idee" ∧
        (idea.id = some (.str "uuid-1") ∨
          ∃ (h : String) (g : String), (none : Option String) = some h ∧
            extractParenGroup h.toList = some g ∧
            idea.id = some (.str g)) :=
  C5_createIdea_fresh_entity ⟨"", none, ""⟩
    ⟨none, true, none, "uuid-1", "2024-01-01T00:00:00Z"⟩
    ⟨"Digitale Zeiterfassung", "Beschreibung mit 25 Zeich"⟩ "Max Muster"
    (by decide) (Or.inl (by decide))

/-- `isIdeaOwner` of auth.ts (lines 114–123).  auth.ts contains two
declarations of this function; under JavaScript declaration semantics
the later one is in effect, and it is the one embedded here.  The
current user name (`getCurrentUser().name`) is passed explicitly.
`toLowerCase` is modelled by lowering each character of the string. -/
def strLower (s : String) : String :=
  String.mk (s.data.map Char.toLower)

def isIdeaOwner (currentUserName : String)
    (ideaSubmittedBy : Option String) : Bool :=
  match ideaSubmittedBy with
  | none => false
  | some s => if s = "" then false
      else decide (strLower currentUserName = strLower s)

/-- C9: the ownership check rejects every missing submitter (null,
undefined or empty string) and otherwise holds exactly when the current
user name equals the submitter name case-insensitively. -/
theorem C9_isIdeaOwner_name_comparison
    : ∀ user : String,
        isIdeaOwner user none = false ∧
        isIdeaOwner user (some "") = false ∧
        (∀ s : String, s ≠ "" →
          (isIdeaOwner user (some s) = true ↔ strLower user = strLower s)) := by
  intro user
  refine ⟨rfl, rfl, ?_⟩
  intro s hs
  simp [isIdeaOwner, hs]

/-- Witness for C9: `Demo User` owns an idea submitted by `demo user`
but not one submitted by `Max Muster`. -/
theorem C9_isIdeaOwner_name_comparison_witness
    : isIdeaOwner "Demo User" (some "demo user") = true ∧
      isIdeaOwner "Demo User" (some "Max Muster") = false := by
  constructor
  · exact ((C9_isIdeaOwner_name_comparison "Demo User").2.2 "demo user"
      (by decide)).mpr (by decide)
  · have h := (C9_isIdeaOwner_name_comparison "Demo User").2.2 "Max Muster"
      (by decide)
    by_contra hcontra
    simp only [Bool.not_eq_false] at hcontra
    exact absurd (h.mp hcontra) (by decide)

/-- The action `subscribeToIdea` performs: either no PATCH at all, or a
call to `updateSubscribers` with the new subscriber list. -/
inductive SubscribeAction where
  | noRequest
  | update (subscribers : List String)
deriving Repr, DecidableEq

/-- The PATCH body `updateSubscribers` sends: the subscriber names
joined with semicolons. -/
def updateSubscribersBody (subscribers : List String)
    : List (String × DvValue) :=
  [("cr6df_abonnenten", .str (String.intercalate ";" subscribers))]

/-- `subscribeToIdea` of subscribeActions.ts: an already-subscribed user
name short-circuits to success without any update request; otherwise the
name is appended and `updateSubscribers` is called. -/
def subscribeToIdea (ideaId : String) (currentSubscribers : List String)
    (userName : String) : SubscribeAction :=
  if userName ∈ currentSubscribers then .noRequest
  else .update (currentSubscribers ++ [userName])

/-- C10: subscribing is idempotent — a member user name causes success
with no update request, and a non-member is appended exactly once (the
new list counts the name once more, so exactly once for a fresh name). -/
theorem C10_subscribe_idempotent
    : ∀ (ideaId : String) (subs : List String) (userName : String),
        (userName ∈ subs →
          subscribeToIdea ideaId subs userName = .noRequest) ∧
        (userName ∉ subs →
          subscribeToIdea ideaId subs userName =
            .update (subs ++ [userName]) ∧
          (subs ++ [userName]).count userName = 1) := by
  intro ideaId subs userName
  constructor
  · intro h
    simp [subscribeToIdea, h]
  · intro h
    refine ⟨by simp [subscribeToIdea, h], ?_⟩
    rw [List.count_append, List.count_eq_zero.mpr h]
    simp
/-- Witness for C10: subscribing `Max Muster` again changes nothing;
subscribing `Anna` appends her once. -/
theorem C10_subscribe_idempotent_witness
    : subscribeToIdea "idea-1" ["Max Muster"] "Max Muster" = .noRequest ∧
      subscribeToIdea "idea-1" ["Max Muster"] "Anna" =
        .update ["Max Muster", "Anna"] ∧
      (["Max Muster", "Anna"] : List String).count "Anna" = 1 := by
  refine ⟨?_, ?_⟩
  · exact (C10_subscribe_idempotent "idea-1" ["Max Muster"] "Max Muster").1
      (by decide)
  · exact (C10_subscribe_idempotent "idea-1" ["Max Muster"] "Anna").2
      (by decide)
